import Mathlib

/-!
Verification of the Browser Session & Tool Dispatch Engine of the MCP browser
automation server.  The development shallowly embeds the TypeScript sources:

* src/browser.ts        (class BrowserManager)          -> initializeBM, getPage,
                                                           close, setActivePage
* src/tools/web.ts      (general web tools)             -> navigate, screenshot,
                                                           click, typeText, extractText, executeJs,
                                                           waitFor, getCurrentUrl,
                                                           getAccessibilitySnapshot, switchTab
* src/tools/messenger.ts (Messenger workflow tools)     -> ensureMessengerOpen,
                                                           listConversations, searchConversation,
                                                           openConversation, sendMessage,
                                                           readMessages, sendFile,
                                                           getConversationInfo
* src/index.ts          (tool declarations and the CallToolRequestSchema
                          switch)                        -> TOOLS, dispatch
* src/config.ts         (configuration defaults)        -> config

Modelling conventions:
* A browser page is observed only through the selector queries the code makes,
  so a page is a record of those observations (a UI snapshot).
* The environment (engine launch outcomes, navigation results, the page set of
  the context) is a World record; stateful code is explicit state passing over
  SState, the three nullable fields of BrowserManager plus the UI of the
  active page.
* Every interaction with the browser engine is logged in a trace
  (List BAct); a tool call returns (result, final state, trace).
* Playwright calls that reject (engine launch failure, fill with an undefined
  value) are modelled as error results; the thrown message texts of the
  external engine are stand-ins, since the engine is outside the repository.
* The TypeScript dispatcher casts the argument object without validation, so a
  handler parameter declared string can receive undefined at run time; such
  parameters are embedded as Option String (none = undefined).
-/

/-- One observable interaction with the browser engine or the active page. -/
inductive BAct where
  | launch
  | newPersistentContext
  | newContext
  | newPage
  | setTimeouts
  | goto (url : String)
  | waitLoadState
  | query (sel : String)
  | readTitle
  | click (sel : String)
  | clickResult (text : String)
  | fill (sel : String) (text : String)
  | press (key : String)
  | waitTimeout (ms : Nat)
  | shot (fullPage : Bool)
  | evalScript (script : String)
  | evalSnapshotScript
  | waitForSel (sel : String) (ms : Nat)
  | setFiles (path : String)
  | closeContext
  | closeBrowser
  deriving DecidableEq

/-- UI snapshot of one browser tab, as observed through the queries the code
makes.  searchResults q is the text of the entries of the listbox
[role="listbox"] [role="option"] after the search control has been filled with
q and the settle delay has elapsed; conversationRows is the trimmed text of the
name element of each sidebar row (empty string when the row has no name
element); elemText sel is the text content of the first element matching sel
(none when no element matches, as for page.querySelector). -/
structure Page where
  url : String
  title : String
  hasLoginMarker : Bool
  hasSearchInput : Bool
  searchResults : String → List String
  hasMessageInput : Bool
  conversationRows : List String
  messageRows : List String
  hasAttachButton : Bool
  hasFileInput : Bool
  hasBody : Bool
  elemText : String → Option String
  headerName : Option String

/-- Environment of one run: which initialization primitives succeed, the
configured profile directory, the handles the engine hands out, the UI of each
page handle, the UI resulting from navigating the active tab to a URL, and the
page set of the browsing context. -/
structure World where
  launchOk : Bool
  ctxOk : Bool
  pageOk : Bool
  userDataDir : Option String
  persistentPages : List Nat
  freshBrowser : Nat
  freshContext : Nat
  freshPage : Nat
  uiOf : Nat → Page
  navTo : String → Page
  contextPages : List Nat

/-- The mutable fields of the BrowserManager singleton (browser, context, page,
all nullable), together with the UI snapshot of the active page (meaningful
when page is not none). -/
structure SState where
  browser : Option Nat
  context : Option Nat
  page : Option Nat
  ui : Page

/-- Configuration defaults from config.ts with no .env file present. -/
structure ServerConfig where
  navigationTimeout : Nat
  actionTimeout : Nat
  messengerUrl : String

def config : ServerConfig :=
  { navigationTimeout := 30000, actionTimeout := 10000,
    messengerUrl := "https://www.messenger.com" }

/-- The SELECTORS object of tools/messenger.ts. -/
structure Selectors where
  searchInput : String
  conversationList : String
  messageInput : String
  sendButton : String
  messageList : String
  fileInput : String
  attachButton : String

def SELECTORS : Selectors :=
  { searchInput := "[aria-label=\"Search Messenger\"]",
    conversationList := "[role=\"navigation\"] [role=\"row\"]",
    messageInput := "[aria-label=\"Message\"]",
    sendButton := "[aria-label=\"Press enter to send\"]",
    messageList := "[role=\"main\"] [role=\"row\"]",
    fileInput := "input[type=\"file\"]",
    attachButton := "[aria-label=\"Attach a file\"]" }

def loginMarkerSel : String := "input[name=\"email\"]"

def listboxSel : String := "[role=\"listbox\"] [role=\"option\"]"

def loginPrompt : String :=
  "Please log in to Messenger manually in the browser window, then try again."

/-- JavaScript String.prototype.includes, as in currentUrl.includes(...). -/
def strIncludes (hay needle : String) : Bool :=
  decide (needle.data <:+: hay.data)

/-- BrowserManager.initializeBM.  The browser field is assigned as soon as
chromium.launch resolves, before the context and the page are created, so a
later failure leaves the already assigned handles in place (explicit state
passing of the partial assignments). -/
def initializeBM (w : World) (s : SState) :
    Except String Unit × SState × List BAct :=
  if ¬ w.launchOk then (.error "browserType.launch failed", s, [.launch])
  else
    let s1 : SState := { s with browser := some w.freshBrowser }
    match w.userDataDir with
    | some _ =>
      if ¬ w.ctxOk then
        (.error "launchPersistentContext failed", s1, [.launch, .newPersistentContext])
      else
        let s2 : SState := { s1 with context := some w.freshContext }
        match w.persistentPages with
        | p :: _ =>
          (.ok (), { s2 with page := some p, ui := w.uiOf p },
            [.launch, .newPersistentContext, .setTimeouts])
        | [] =>
          if ¬ w.pageOk then
            (.error "newPage failed", s2, [.launch, .newPersistentContext, .newPage])
          else
            (.ok (), { s2 with page := some w.freshPage, ui := w.uiOf w.freshPage },
              [.launch, .newPersistentContext, .newPage, .setTimeouts])
    | none =>
      if ¬ w.ctxOk then (.error "browser.newContext failed", s1, [.launch, .newContext])
      else
        let s2 : SState := { s1 with context := some w.freshContext }
        if ¬ w.pageOk then (.error "newPage failed", s2, [.launch, .newContext, .newPage])
        else
          (.ok (), { s2 with page := some w.freshPage, ui := w.uiOf w.freshPage },
            [.launch, .newContext, .newPage, .setTimeouts])

/-- BrowserManager.getPage: lazy initialization guarded only by the page
field. -/
def getPage (w : World) (s : SState) :
    Except String Nat × SState × List BAct :=
  match s.page with
  | some p => (.ok p, s, [])
  | none =>
    match initializeBM w s with
    | (.error e, s1, tr) => (.error e, s1, tr)
    | (.ok _, s1, tr) => (.ok (s1.page.getD 0), s1, tr)

/-- BrowserManager.close: closes context and browser when present and nulls
all three fields. -/
def close (s : SState) : SState × List BAct :=
  ({ browser := none, context := none, page := none, ui := s.ui },
    (if s.context.isSome then [BAct.closeContext] else []) ++
    (if s.browser.isSome then [BAct.closeBrowser] else []))

/-- BrowserManager.setActivePage: reassigns the active page and re-applies the
default timeouts. -/
def setActivePage (w : World) (s : SState) (h : Nat) : SState × List BAct :=
  ({ s with page := some h, ui := w.uiOf h }, [.setTimeouts])

/-- Result envelope of one tool handler, one constructor per result shape of
the TypeScript tool functions. -/
inductive ToolOut where
  | soft (success : Bool) (error : Option String)
  | nav (success : Bool) (title : Option String) (error : Option String)
  | shotOut (success : Bool) (hasImage : Bool) (error : Option String)
  | textOut (success : Bool) (text : Option String) (error : Option String)
  | jsOut (success : Bool) (error : Option String)
  | urlOut (url : String) (error : Option String)
  | snapOut (success : Bool) (error : Option String)
  | convsOut (conversations : List String) (error : Option String)
  | searchOut (results : List String) (error : Option String)
  | msgsOut (messages : List String) (error : Option String)
  | infoOut (name : Option String) (participants : Option (List String)) (error : Option String)
  | closeOut (success : Bool)
  deriving DecidableEq

/-- web.navigate.  url is Option String because the dispatcher cast can pass
undefined; page.goto(undefined) rejects and the catch turns it into a soft
error. -/
def navigate (w : World) (s : SState) (url : Option String) :
    ToolOut × SState × List BAct :=
  match getPage w s with
  | (.error e, s1, tr) => (.nav false none (some e), s1, tr)
  | (.ok _, s1, tr) =>
    match url with
    | none => (.nav false none (some "page.goto: url expected string"), s1, tr)
    | some u =>
      let p := w.navTo u
      (.nav true (some p.title) none, { s1 with ui := p },
        tr ++ [.goto u, .waitLoadState, .readTitle])

/-- web.screenshot (the screenshot buffer itself is opaque, only its presence
is modelled). -/
def screenshot (w : World) (s : SState) (fullPage : Bool) :
    ToolOut × SState × List BAct :=
  match getPage w s with
  | (.error e, s1, tr) => (.shotOut false false (some e), s1, tr)
  | (.ok _, s1, tr) => (.shotOut true true none, s1, tr ++ [.shot fullPage])

/-- web.click.  page.click auto-waits for the selector and rejects on timeout
when no element matches. -/
def click (w : World) (s : SState) (selector : Option String) :
    ToolOut × SState × List BAct :=
  match getPage w s with
  | (.error e, s1, tr) => (.soft false (some e), s1, tr)
  | (.ok _, s1, tr) =>
    match selector with
    | none => (.soft false (some "page.click: selector expected string"), s1, tr)
    | some sel =>
      if (s1.ui.elemText sel).isSome then (.soft true none, s1, tr ++ [.click sel])
      else (.soft false (some ("page.click: timeout waiting for selector " ++ sel)),
            s1, tr ++ [.click sel])

/-- web.type (named type in the source; renamed because type is reserved in
Lean). -/
def typeText (w : World) (s : SState) (selector text : Option String) :
    ToolOut × SState × List BAct :=
  match getPage w s with
  | (.error e, s1, tr) => (.soft false (some e), s1, tr)
  | (.ok _, s1, tr) =>
    match selector, text with
    | some sel, some t =>
      if (s1.ui.elemText sel).isSome then (.soft true none, s1, tr ++ [.fill sel t])
      else (.soft false (some ("page.fill: timeout waiting for selector " ++ sel)),
            s1, tr ++ [.fill sel t])
    | _, _ => (.soft false (some "page.fill: expected string arguments"), s1, tr)

/-- web.extractText: selector defaults to body; a missing element is a soft
error naming the selector. -/
def extractText (w : World) (s : SState) (selector : Option String) :
    ToolOut × SState × List BAct :=
  match getPage w s with
  | (.error e, s1, tr) => (.textOut false none (some e), s1, tr)
  | (.ok _, s1, tr) =>
    let sel := selector.getD "body"
    match s1.ui.elemText sel with
    | none => (.textOut false none (some ("Element not found: " ++ sel)), s1,
               tr ++ [.query sel])
    | some t => (.textOut true (some t.trim) none, s1, tr ++ [.query sel])

/-- web.executeJs. -/
def executeJs (w : World) (s : SState) (script : Option String) :
    ToolOut × SState × List BAct :=
  match getPage w s with
  | (.error e, s1, tr) => (.jsOut false (some e), s1, tr)
  | (.ok _, s1, tr) =>
    match script with
    | none => (.jsOut false (some "page.evaluate: expected function or string"), s1, tr)
    | some scr => (.jsOut true none, s1, tr ++ [.evalScript scr])

/-- web.waitFor. -/
def waitFor (w : World) (s : SState) (selector : Option String) (ms : Nat) :
    ToolOut × SState × List BAct :=
  match getPage w s with
  | (.error e, s1, tr) => (.soft false (some e), s1, tr)
  | (.ok _, s1, tr) =>
    match selector with
    | none => (.soft false (some "waitForSelector: selector expected string"), s1, tr)
    | some sel =>
      if (s1.ui.elemText sel).isSome then
        (.soft true none, s1, tr ++ [.waitForSel sel ms])
      else
        (.soft false (some ("Timeout exceeded waiting for selector " ++ sel)), s1,
          tr ++ [.waitForSel sel ms])

/-- web.getCurrentUrl (page.url is a local read, no engine round trip). -/
def getCurrentUrl (w : World) (s : SState) : ToolOut × SState × List BAct :=
  match getPage w s with
  | (.error e, s1, tr) => (.urlOut "" (some e), s1, tr)
  | (.ok _, s1, tr) => (.urlOut s1.ui.url none, s1, tr)

/-- web.getAccessibilitySnapshot (the extracted tree itself is opaque). -/
def getAccessibilitySnapshot (w : World) (s : SState) :
    ToolOut × SState × List BAct :=
  match getPage w s with
  | (.error e, s1, tr) => (.snapOut false (some e), s1, tr)
  | (.ok _, s1, tr) =>
    if ¬ s1.ui.hasBody then
      (.snapOut false (some "Could not get page body"), s1, tr ++ [.query "body"])
    else (.snapOut true none, s1, tr ++ [.query "body", .evalSnapshotScript])

/-- web.switchTab: bounds check against the page set of the context, then
BrowserManager.setActivePage. -/
def switchTab (w : World) (s : SState) (index : Int) :
    ToolOut × SState × List BAct :=
  match getPage w s with
  | (.error e, s1, tr) => (.soft false (some e), s1, tr)
  | (.ok _, s1, tr) =>
    let pages := w.contextPages
    if index < 0 ∨ (pages.length : Int) ≤ index then
      (.soft false (some ("Invalid tab index: " ++ toString index)), s1, tr)
    else
      let (s2, tr2) := setActivePage w s1 (pages.getD index.toNat 0)
      (.soft true none, s2, tr ++ tr2)

/-- messenger.ensureMessengerOpen: navigate to Messenger when not already
there, then query the login marker input[name="email"]; its presence is the
unauthenticated state and yields the manual-login error. -/
def ensureMessengerOpen (w : World) (s : SState) :
    (Bool × Option String) × SState × List BAct :=
  match getPage w s with
  | (.error e, s1, tr) => ((false, some e), s1, tr)
  | (.ok _, s1, tr) =>
    let (s2, tr2) :=
      if strIncludes s1.ui.url "messenger.com" then (s1, tr)
      else ({ s1 with ui := w.navTo config.messengerUrl },
            tr ++ [.goto config.messengerUrl, .waitLoadState])
    let tr3 := tr2 ++ [.query loginMarkerSel]
    if s2.ui.hasLoginMarker then ((false, some loginPrompt), s2, tr3)
    else ((true, none), s2, tr3)

/-- messenger.listConversations: the sidebar rows are truncated to the first
20 before name extraction, and empty names are dropped (filter(Boolean)). -/
def listConversations (w : World) (s : SState) : ToolOut × SState × List BAct :=
  let (st, s1, tr) := ensureMessengerOpen w s
  if st.1 = false then (.convsOut [] st.2, s1, tr)
  else
    match getPage w s1 with
    | (.error e, s2, tr2) => (.convsOut [] (some e), s2, tr ++ tr2)
    | (.ok _, s2, tr2) =>
      (.convsOut ((s2.ui.conversationRows.take 20).filter (fun n => n != "")) none,
        s2, tr ++ tr2 ++ [.query SELECTORS.conversationList])

/-- messenger.searchConversation. -/
def searchConversation (w : World) (s : SState) (q : Option String) :
    ToolOut × SState × List BAct :=
  let (st, s1, tr) := ensureMessengerOpen w s
  if st.1 = false then (.searchOut [] st.2, s1, tr)
  else
    match getPage w s1 with
    | (.error e, s2, tr2) => (.searchOut [] (some e), s2, tr ++ tr2)
    | (.ok _, s2, tr2) =>
      if ¬ s2.ui.hasSearchInput then
        (.searchOut [] (some "Could not find search input"), s2,
          tr ++ tr2 ++ [.query SELECTORS.searchInput])
      else
        match q with
        | none =>
          (.searchOut [] (some "elementHandle.fill: value expected string"), s2,
            tr ++ tr2 ++ [.query SELECTORS.searchInput, .click SELECTORS.searchInput])
        | some qs =>
          (.searchOut ((s2.ui.searchResults qs).filter (fun r => r != "")) none, s2,
            tr ++ tr2 ++
              [.query SELECTORS.searchInput, .click SELECTORS.searchInput,
               .fill SELECTORS.searchInput qs, .waitTimeout 1000, .query listboxSel,
               .fill SELECTORS.searchInput "", .press "Escape"])

/-- messenger.openConversation: search for the name, then click the first
entry of the result listbox; an empty result list terminates with an error
naming the missing conversation. -/
def openConversation (w : World) (s : SState) (name : Option String) :
    (Bool × Option String) × SState × List BAct :=
  match getPage w s with
  | (.error e, s1, tr) => ((false, some e), s1, tr)
  | (.ok _, s1, tr) =>
    if ¬ s1.ui.hasSearchInput then
      ((false, some "Could not find search input"), s1,
        tr ++ [.query SELECTORS.searchInput])
    else
      match name with
      | none =>
        ((false, some "elementHandle.fill: value expected string"), s1,
          tr ++ [.query SELECTORS.searchInput, .click SELECTORS.searchInput])
      | some nm =>
        let tr1 := tr ++
          [.query SELECTORS.searchInput, .click SELECTORS.searchInput,
           .fill SELECTORS.searchInput nm, .waitTimeout 1000, .query listboxSel]
        match s1.ui.searchResults nm with
        | [] => ((false, some ("Could not find conversation: " ++ nm)), s1, tr1)
        | r :: _ => ((true, none), s1, tr1 ++ [.clickResult r, .waitTimeout 500])

/-- messenger.sendMessage: ensure Messenger is open, open the conversation,
then click the message input, fill it with the message and press Enter. -/
def sendMessage (w : World) (s : SState) (name msg : Option String) :
    ToolOut × SState × List BAct :=
  let (st, s1, tr) := ensureMessengerOpen w s
  if st.1 = false then (.soft false st.2, s1, tr)
  else
    let (op, s2, tr2) := openConversation w s1 name
    if op.1 = false then (.soft false op.2, s2, tr ++ tr2)
    else
      match getPage w s2 with
      | (.error e, s3, tr3) => (.soft false (some e), s3, tr ++ tr2 ++ tr3)
      | (.ok _, s3, tr3) =>
        if ¬ s3.ui.hasMessageInput then
          (.soft false (some "Could not find message input"), s3,
            tr ++ tr2 ++ tr3 ++ [.query SELECTORS.messageInput])
        else
          match msg with
          | none =>
            (.soft false (some "elementHandle.fill: value expected string"), s3,
              tr ++ tr2 ++ tr3 ++
                [.query SELECTORS.messageInput, .click SELECTORS.messageInput])
          | some m =>
            (.soft true none, s3,
              tr ++ tr2 ++ tr3 ++
                [.query SELECTORS.messageInput, .click SELECTORS.messageInput,
                 .fill SELECTORS.messageInput m, .press "Enter", .waitTimeout 500])

/-- messenger.readMessages: rows.slice(-count) keeps the last count rows. -/
def readMessages (w : World) (s : SState) (count : Nat) :
    ToolOut × SState × List BAct :=
  let (st, s1, tr) := ensureMessengerOpen w s
  if st.1 = false then (.msgsOut [] st.2, s1, tr)
  else
    match getPage w s1 with
    | (.error e, s2, tr2) => (.msgsOut [] (some e), s2, tr ++ tr2)
    | (.ok _, s2, tr2) =>
      let rows := s2.ui.messageRows
      (.msgsOut ((rows.drop (rows.length - count)).filter (fun t => t != "")) none,
        s2, tr ++ tr2 ++ [.query SELECTORS.messageList])

/-- messenger.sendFile: a missing attach button is tolerated (skipped), a
missing file input is an error. -/
def sendFile (w : World) (s : SState) (name path : Option String) :
    ToolOut × SState × List BAct :=
  let (st, s1, tr) := ensureMessengerOpen w s
  if st.1 = false then (.soft false st.2, s1, tr)
  else
    let (op, s2, tr2) := openConversation w s1 name
    if op.1 = false then (.soft false op.2, s2, tr ++ tr2)
    else
      match getPage w s2 with
      | (.error e, s3, tr3) => (.soft false (some e), s3, tr ++ tr2 ++ tr3)
      | (.ok _, s3, tr3) =>
        let trA := tr ++ tr2 ++ tr3 ++
          (if s3.ui.hasAttachButton then
            [BAct.query SELECTORS.attachButton, BAct.click SELECTORS.attachButton]
           else [BAct.query SELECTORS.attachButton])
        if ¬ s3.ui.hasFileInput then
          (.soft false (some "Could not find file input"), s3,
            trA ++ [.query SELECTORS.fileInput])
        else
          match path with
          | none =>
            (.soft false (some "setInputFiles: expected string"), s3,
              trA ++ [.query SELECTORS.fileInput])
          | some fp =>
            (.soft true none, s3,
              trA ++ [.query SELECTORS.fileInput, .setFiles fp, .waitTimeout 1000,
                      .press "Enter", .waitTimeout 1000])

/-- messenger.getConversationInfo: textContent() of the header element, with
an empty string collapsed to undefined by the or-undefined coercion. -/
def getConversationInfo (w : World) (s : SState) : ToolOut × SState × List BAct :=
  let (st, s1, tr) := ensureMessengerOpen w s
  if st.1 = false then (.infoOut none none st.2, s1, tr)
  else
    match getPage w s1 with
    | (.error e, s2, tr2) => (.infoOut none none (some e), s2, tr ++ tr2)
    | (.ok _, s2, tr2) =>
      let nm : Option String :=
        match s2.ui.headerName with
        | some t => if t = "" then none else some t
        | none => none
      (.infoOut nm (some (match nm with | some n => [n] | none => [])) none, s2,
        tr ++ tr2 ++ [.query "[role=\"main\"] h1, [role=\"main\"] [dir=\"auto\"]"])

/-- A JSON-compatible argument value of a ToolRequest. -/
inductive JVal where
  | str (s : String)
  | num (n : Int)
  | boolV (b : Bool)
  deriving DecidableEq

/-- The argument object of one tool call: a finite map from field names to
values; a name that is absent is undefined. -/
abbrev Args := List (String × JVal)

def getField (a : Args) (k : String) : Option JVal :=
  (a.find? (fun kv => kv.1 == k)).map (fun kv => kv.2)

def getStr (a : Args) (k : String) : Option String :=
  match getField a k with
  | some (.str s) => some s
  | _ => none

def getNum (a : Args) (k : String) : Option Int :=
  match getField a k with
  | some (.num n) => some n
  | _ => none

def getBool (a : Args) (k : String) : Option Bool :=
  match getField a k with
  | some (.boolV b) => some b
  | _ => none

/-- Declaration of one tool: its name and the required field names of its
input schema, from the TOOLS array of index.ts. -/
structure ToolDecl where
  name : String
  required : List String
  deriving DecidableEq

def TOOLS : List ToolDecl :=
  [⟨"messenger_list_conversations", []⟩,
   ⟨"messenger_search_conversation", ["query"]⟩,
   ⟨"messenger_send_message", ["conversationName", "message"]⟩,
   ⟨"messenger_read_messages", []⟩,
   ⟨"messenger_send_file", ["conversationName", "filePath"]⟩,
   ⟨"messenger_get_info", []⟩,
   ⟨"web_navigate", ["url"]⟩,
   ⟨"web_screenshot", []⟩,
   ⟨"web_click", ["selector"]⟩,
   ⟨"web_type", ["selector", "text"]⟩,
   ⟨"web_extract_text", []⟩,
   ⟨"web_execute_js", ["script"]⟩,
   ⟨"web_wait_for", ["selector"]⟩,
   ⟨"web_get_url", []⟩,
   ⟨"web_accessibility_snapshot", []⟩,
   ⟨"browser_close", []⟩]

/-- Protocol-level error codes of the transport SDK used by the dispatcher. -/
inductive McpErrorCode where
  | methodNotFound
  | internalError
  deriving DecidableEq

structure McpErr where
  code : McpErrorCode
  message : String
  deriving DecidableEq

def wrapOk : ToolOut × SState × List BAct →
    Except McpErr ToolOut × SState × List BAct :=
  fun r => (.ok r.1, r.2.1, r.2.2)

/-- The CallToolRequestSchema handler of index.ts: a switch on the tool name
that casts the argument object and invokes the matching handler; no
required-field validation is performed before the handler runs.  The default
case throws McpError(MethodNotFound, ...), which the catch clause re-throws
unchanged. -/
def dispatch (w : World) (s : SState) (name : String) (args : Args) :
    Except McpErr ToolOut × SState × List BAct :=
  if name = "messenger_list_conversations" then wrapOk (listConversations w s)
  else if name = "messenger_search_conversation" then
    wrapOk (searchConversation w s (getStr args "query"))
  else if name = "messenger_send_message" then
    wrapOk (sendMessage w s (getStr args "conversationName") (getStr args "message"))
  else if name = "messenger_read_messages" then
    wrapOk (readMessages w s (((getNum args "count").map Int.toNat).getD 20))
  else if name = "messenger_send_file" then
    wrapOk (sendFile w s (getStr args "conversationName") (getStr args "filePath"))
  else if name = "messenger_get_info" then wrapOk (getConversationInfo w s)
  else if name = "web_navigate" then wrapOk (navigate w s (getStr args "url"))
  else if name = "web_screenshot" then
    wrapOk (screenshot w s ((getBool args "fullPage").getD false))
  else if name = "web_click" then wrapOk (click w s (getStr args "selector"))
  else if name = "web_type" then
    wrapOk (typeText w s (getStr args "selector") (getStr args "text"))
  else if name = "web_extract_text" then
    wrapOk (extractText w s (getStr args "selector"))
  else if name = "web_execute_js" then wrapOk (executeJs w s (getStr args "script"))
  else if name = "web_wait_for" then
    wrapOk (waitFor w s (getStr args "selector")
      (((getNum args "timeout").map Int.toNat).getD 5000))
  else if name = "web_get_url" then wrapOk (getCurrentUrl w s)
  else if name = "web_accessibility_snapshot" then
    wrapOk (getAccessibilitySnapshot w s)
  else if name = "browser_close" then
    let r := close s
    (.ok (.closeOut true), r.1, r.2)
  else (.error ⟨.methodNotFound, "Unknown tool: " ++ name⟩, s, [])

/-- Checker that a trace is an interleaving of two traces.  The server wires
each incoming request to an independent async handler with no queue or mutex,
so while one handler is suspended at an await the other may run: the
observable browser interaction of two in-flight calls is an arbitrary
interleaving of the two handler traces. -/
def isInterleaving : List BAct → List BAct → List BAct → Bool
  | [], [], [] => true
  | _ :: _, _, [] => false
  | [], _ :: _, [] => false
  | [], [], _ :: _ => false
  | x :: xs, [], z :: zs => x == z && isInterleaving xs [] zs
  | [], y :: ys, z :: zs => y == z && isInterleaving [] ys zs
  | x :: xs, y :: ys, z :: zs =>
    (x == z && isInterleaving xs (y :: ys) zs) ||
    (y == z && isInterleaving (x :: xs) ys zs)

/-! Concrete fixtures used by witnesses and counterexamples. -/

/-- A blank tab: no Messenger UI, a body element, nothing else. -/
def pageBlank : Page :=
  { url := "about:blank", title := "", hasLoginMarker := false,
    hasSearchInput := false, searchResults := fun _ => [],
    hasMessageInput := false, conversationRows := [], messageRows := [],
    hasAttachButton := false, hasFileInput := false, hasBody := true,
    elemText := fun _ => none, headerName := none }

/-- The Messenger login page: the login marker input[name="email"] is
present. -/
def loginPage : Page :=
  { pageBlank with url := "https://www.messenger.com", hasLoginMarker := true }

/-- A logged-in Messenger page: search control present, searching for Alice
yields one result, the message input is present. -/
def chatPage : Page :=
  { pageBlank with
    url := "https://www.messenger.com/t/100",
    hasSearchInput := true,
    searchResults := fun q => if q = "Alice" then ["Alice chat"] else [],
    hasMessageInput := true,
    conversationRows := ["Alice", "Bob"],
    elemText := fun _ => some "x" }

/-- An environment in which every initialization primitive succeeds. -/
def okWorld : World :=
  { launchOk := true, ctxOk := true, pageOk := true, userDataDir := none,
    persistentPages := [], freshBrowser := 1, freshContext := 2, freshPage := 3,
    uiOf := fun _ => pageBlank, navTo := fun _ => pageBlank, contextPages := [] }

/-- An environment in which the engine launches but the context cannot be
created. -/
def cexWorld : World := { okWorld with ctxOk := false }

/-- The uninitialized session: all three BrowserManager fields are null. -/
def emptySession : SState :=
  { browser := none, context := none, page := none, ui := pageBlank }

/-- A session after successful initialization in okWorld. -/
def initState : SState :=
  { browser := some 1, context := some 2, page := some 3, ui := pageBlank }

/-- The half-constructed session left behind when the context creation of
initializeBM fails after the engine launch: a live browser handle, no
context, no page. -/
def partialState : SState :=
  { browser := some 1, context := none, page := none, ui := pageBlank }

/-- An initialized session whose active page is the logged-in chat page. -/
def chatSession : SState :=
  { browser := some 1, context := some 2, page := some 3, ui := chatPage }

/-- An initialized session whose active page is the login page. -/
def loginSession : SState :=
  { browser := some 1, context := some 2, page := some 3, ui := loginPage }

/-- The browser-interaction trace of a first in-flight tool call:
messenger_send_message to Alice on the live chat session. -/
def sendTrace1 : List BAct :=
  (sendMessage okWorld chatSession (some "Alice") (some "hi")).2.2

/-- The browser-interaction trace of a second, concurrently issued tool call:
web_click on the same session. -/
def clickTrace2 : List BAct :=
  (click okWorld chatSession (some "button#send2")).2.2

/-- One admissible schedule of the two in-flight handlers: the second call's
click lands between the first call's fill of the message input and its Enter
key press. -/
def interleavedTrace : List BAct :=
  sendTrace1.take 11 ++ [BAct.click "button#send2"] ++ sendTrace1.drop 11

/-! Theorems. -/

/-- Claim C10: for every environment and session state, listConversations
returns at most 20 conversation names and never an empty name: the code
truncates the sidebar rows with slice(0, 20) before extracting names and drops
empty names with filter(Boolean), although no such limit is stated at the
interface. -/
theorem C10_listConversations_at_most_twenty (w : World) (s : SState) :
    ∃ convs err, (listConversations w s).1 = ToolOut.convsOut convs err ∧
      convs.length ≤ 20 ∧ "" ∉ convs := by
  unfold listConversations
  rcases hE : ensureMessengerOpen w s with ⟨st, s1, tr⟩
  by_cases hb : st.1 = false
  · exact ⟨[], st.2, by simp [hE, hb], by simp, by simp⟩
  · rcases hg : getPage w s1 with ⟨r, s2, tr2⟩
    cases r with
    | error e => exact ⟨[], some e, by simp [hE, hb, hg], by simp, by simp⟩
    | ok p =>
      refine ⟨(s2.ui.conversationRows.take 20).filter (fun n => n != ""), none,
        by simp [hE, hb, hg], ?_, ?_⟩
      · exact le_trans (List.length_filter_le _ _) (by simp [List.length_take])
      · intro hmem
        have h2 := (List.mem_filter.mp hmem).2
        simp at h2

/-- Claim C7: when the session is live and the active page is on
messenger.com with the login marker present, listConversations returns the
soft-failure shape: an empty conversation list together with the non-empty
manual-login error string, not a thrown fault and not an Err-shaped result
(the return type of listConversations has no Err variant at all). -/
theorem C7_listConversations_login_marker (w : World) (s : SState) (p : Nat)
    (hp : s.page = some p)
    (hurl : strIncludes s.ui.url "messenger.com" = true)
    (hmark : s.ui.hasLoginMarker = true) :
    listConversations w s =
      (ToolOut.convsOut [] (some loginPrompt), s, [BAct.query loginMarkerSel]) ∧
    loginPrompt ≠ "" := by
  constructor
  · unfold listConversations ensureMessengerOpen getPage
    rw [hp]
    simp [hurl, hmark]
  · decide

/-- Witness for C7 at the concrete login page fixture. -/
theorem C7_witness :
    loginSession.page = some 3 ∧
    strIncludes loginSession.ui.url "messenger.com" = true ∧
    loginSession.ui.hasLoginMarker = true ∧
    (listConversations okWorld loginSession =
      (ToolOut.convsOut [] (some loginPrompt), loginSession,
        [BAct.query loginMarkerSel]) ∧
      loginPrompt ≠ "") :=
  ⟨rfl, by decide, rfl,
    C7_listConversations_login_marker okWorld loginSession 3 rfl (by decide) rfl⟩

/-- Claim C9: getPage is idempotent on an initialized session: it returns the
current page handle, leaves the state unchanged and performs no browser
interaction (empty trace, in particular no engine launch), and a second
consecutive call returns the same handle again. -/
theorem C9_getPage_idempotent (w : World) (s : SState) (p : Nat)
    (hp : s.page = some p) :
    getPage w s = (Except.ok p, s, []) ∧
    getPage w (getPage w s).2.1 = (Except.ok p, s, []) := by
  have h1 : getPage w s = (Except.ok p, s, []) := by unfold getPage; rw [hp]
  exact ⟨h1, by rw [h1]; exact h1⟩

/-- Witness for C9 at the initialized chat session. -/
theorem C9_witness :
    chatSession.page = some 3 ∧
    (getPage okWorld chatSession = (Except.ok 3, chatSession, []) ∧
     getPage okWorld (getPage okWorld chatSession).2.1 =
       (Except.ok 3, chatSession, [])) :=
  ⟨rfl, C9_getPage_idempotent okWorld chatSession 3 rfl⟩

/-- Claim C8: switchTab with an index outside the range of the open page set
returns the invalid-index error and leaves the active page unchanged. -/
theorem C8_switchTab_invalid_index (w : World) (s : SState) (p : Nat) (idx : Int)
    (hp : s.page = some p)
    (hidx : idx < 0 ∨ (w.contextPages.length : Int) ≤ idx) :
    switchTab w s idx =
      (ToolOut.soft false (some ("Invalid tab index: " ++ toString idx)), s, []) ∧
    (switchTab w s idx).2.1.page = some p := by
  have h1 : switchTab w s idx =
      (ToolOut.soft false (some ("Invalid tab index: " ++ toString idx)), s, []) := by
    unfold switchTab getPage
    rw [hp]
    simp [hidx]
  exact ⟨h1, by rw [h1]; exact hp⟩

/-- Witness for C8: index 5 against an empty page set. -/
theorem C8_witness :
    chatSession.page = some 3 ∧
    (((5 : Int) < 0 ∨ ((okWorld.contextPages.length : Int) ≤ 5)) ∧
     (switchTab okWorld chatSession 5 =
       (ToolOut.soft false (some ("Invalid tab index: " ++ toString (5 : Int))),
         chatSession, []) ∧
      (switchTab okWorld chatSession 5).2.1.page = some 3)) :=
  ⟨rfl, Or.inr (by decide),
    C8_switchTab_invalid_index okWorld chatSession 3 5 rfl (Or.inr (by decide))⟩

/-- Claim C5: on a live, logged-in Messenger session where the conversation
search yields at least one result and the message input is present,
sendMessage succeeds and its browser interaction is exactly: the search
query actions, then a click on the first search result, then a fill of the
message input with the literal message text, then the Enter key press — in
exactly that order (the first result wins; no fuzzy ranking). -/
theorem C5_sendMessage_click_fill_press_order (w : World) (s : SState) (p : Nat)
    (nm m r : String) (rs : List String)
    (hp : s.page = some p)
    (hurl : strIncludes s.ui.url "messenger.com" = true)
    (hmark : s.ui.hasLoginMarker = false)
    (hsearch : s.ui.hasSearchInput = true)
    (hres : s.ui.searchResults nm = r :: rs)
    (hmsg : s.ui.hasMessageInput = true) :
    sendMessage w s (some nm) (some m) =
      (ToolOut.soft true none, s,
        [BAct.query loginMarkerSel,
         BAct.query SELECTORS.searchInput, BAct.click SELECTORS.searchInput,
         BAct.fill SELECTORS.searchInput nm, BAct.waitTimeout 1000,
         BAct.query listboxSel,
         BAct.clickResult r, BAct.waitTimeout 500,
         BAct.query SELECTORS.messageInput, BAct.click SELECTORS.messageInput,
         BAct.fill SELECTORS.messageInput m, BAct.press "Enter",
         BAct.waitTimeout 500]) := by
  have hGP : getPage w s = (Except.ok p, s, []) := by unfold getPage; rw [hp]
  have hEns : ensureMessengerOpen w s =
      ((true, none), s, [BAct.query loginMarkerSel]) := by
    unfold ensureMessengerOpen
    rw [hGP]
    simp [hurl, hmark]
  have hOpen : openConversation w s (some nm) =
      ((true, none), s,
        [BAct.query SELECTORS.searchInput, BAct.click SELECTORS.searchInput,
         BAct.fill SELECTORS.searchInput nm, BAct.waitTimeout 1000,
         BAct.query listboxSel, BAct.clickResult r, BAct.waitTimeout 500]) := by
    unfold openConversation
    rw [hGP]
    simp [hsearch, hres]
  unfold sendMessage
  rw [hEns]
  simp only []
  rw [hOpen]
  simp [hGP, hmsg]

/-- Witness for C5: sending "hi" to Alice on the concrete chat page. -/
theorem C5_witness :
    chatSession.page = some 3 ∧
    strIncludes chatSession.ui.url "messenger.com" = true ∧
    chatSession.ui.hasLoginMarker = false ∧
    chatSession.ui.hasSearchInput = true ∧
    chatSession.ui.searchResults "Alice" = "Alice chat" :: [] ∧
    chatSession.ui.hasMessageInput = true ∧
    sendMessage okWorld chatSession (some "Alice") (some "hi") =
      (ToolOut.soft true none, chatSession,
        [BAct.query loginMarkerSel,
         BAct.query SELECTORS.searchInput, BAct.click SELECTORS.searchInput,
         BAct.fill SELECTORS.searchInput "Alice", BAct.waitTimeout 1000,
         BAct.query listboxSel,
         BAct.clickResult "Alice chat", BAct.waitTimeout 500,
         BAct.query SELECTORS.messageInput, BAct.click SELECTORS.messageInput,
         BAct.fill SELECTORS.messageInput "hi", BAct.press "Enter",
         BAct.waitTimeout 500]) :=
  ⟨rfl, by decide, rfl, rfl, by decide, rfl,
    C5_sendMessage_click_fill_press_order okWorld chatSession 3 "Alice" "hi"
      "Alice chat" [] rfl (by decide) rfl rfl (by decide) rfl⟩

/-- Claim C6: on a live, logged-in Messenger session where the conversation
search yields no result for the requested name, sendMessage returns the
error naming the missing conversation (the name is a substring of the error
message), and no fill and no key press is ever attempted on the message
input (the trace contains no fill of the message input selector and no key
press at all). -/
theorem C6_sendMessage_no_result (w : World) (s : SState) (p : Nat)
    (nm m : String)
    (hp : s.page = some p)
    (hurl : strIncludes s.ui.url "messenger.com" = true)
    (hmark : s.ui.hasLoginMarker = false)
    (hsearch : s.ui.hasSearchInput = true)
    (hres : s.ui.searchResults nm = []) :
    (sendMessage w s (some nm) (some m)).1 =
      ToolOut.soft false (some ("Could not find conversation: " ++ nm)) ∧
    nm.data <:+: ("Could not find conversation: " ++ nm).data ∧
    (∀ t, BAct.fill SELECTORS.messageInput t ∉
      (sendMessage w s (some nm) (some m)).2.2) ∧
    (∀ k, BAct.press k ∉ (sendMessage w s (some nm) (some m)).2.2) := by
  have hGP : getPage w s = (Except.ok p, s, []) := by unfold getPage; rw [hp]
  have hEns : ensureMessengerOpen w s =
      ((true, none), s, [BAct.query loginMarkerSel]) := by
    unfold ensureMessengerOpen
    rw [hGP]
    simp [hurl, hmark]
  have hOpen : openConversation w s (some nm) =
      ((false, some ("Could not find conversation: " ++ nm)), s,
        [BAct.query SELECTORS.searchInput, BAct.click SELECTORS.searchInput,
         BAct.fill SELECTORS.searchInput nm, BAct.waitTimeout 1000,
         BAct.query listboxSel]) := by
    unfold openConversation
    rw [hGP]
    simp [hsearch, hres]
  have hSM : sendMessage w s (some nm) (some m) =
      (ToolOut.soft false (some ("Could not find conversation: " ++ nm)), s,
        [BAct.query loginMarkerSel,
         BAct.query SELECTORS.searchInput, BAct.click SELECTORS.searchInput,
         BAct.fill SELECTORS.searchInput nm, BAct.waitTimeout 1000,
         BAct.query listboxSel]) := by
    unfold sendMessage
    rw [hEns]
    simp only []
    rw [hOpen]
    simp
  have hneSel : SELECTORS.messageInput ≠ SELECTORS.searchInput := by decide
  refine ⟨by rw [hSM], ?_, ?_, ?_⟩
  · exact ⟨("Could not find conversation: ").data, [],
      by simp [String.data_append]⟩
  · intro t
    rw [hSM]
    simp [hneSel]
  · intro k
    rw [hSM]
    simp

/-- Witness for C6: searching for Nobody on the concrete chat page. -/
theorem C6_witness :
    chatSession.page = some 3 ∧
    strIncludes chatSession.ui.url "messenger.com" = true ∧
    chatSession.ui.hasLoginMarker = false ∧
    chatSession.ui.hasSearchInput = true ∧
    chatSession.ui.searchResults "Nobody" = [] ∧
    ((sendMessage okWorld chatSession (some "Nobody") (some "hi")).1 =
      ToolOut.soft false (some ("Could not find conversation: " ++ "Nobody")) ∧
     "Nobody".data <:+: ("Could not find conversation: " ++ "Nobody").data ∧
     (∀ t, BAct.fill SELECTORS.messageInput t ∉
       (sendMessage okWorld chatSession (some "Nobody") (some "hi")).2.2) ∧
     (∀ k, BAct.press k ∉
       (sendMessage okWorld chatSession (some "Nobody") (some "hi")).2.2)) :=
  ⟨rfl, by decide, rfl, rfl, by decide,
    C6_sendMessage_no_result okWorld chatSession 3 "Nobody" "hi" rfl (by decide)
      rfl rfl (by decide)⟩

/-- Claim C3: for every tool name outside the declared tool set, dispatch
returns the distinct MethodNotFound protocol error naming the unknown tool,
performs no browser interaction (empty trace) and leaves the session state
unchanged, so the session is uninitialized after the call if and only if it
was before. -/
theorem C3_unknown_tool_rejected (w : World) (s : SState) (name : String)
    (args : Args)
    (h : name ∉ TOOLS.map ToolDecl.name) :
    dispatch w s name args =
      (Except.error ⟨McpErrorCode.methodNotFound, "Unknown tool: " ++ name⟩,
        s, []) ∧
    ((dispatch w s name args).2.1.page = none ↔ s.page = none) := by
  simp only [TOOLS, List.map_cons, List.map_nil, List.mem_cons,
    List.not_mem_nil, or_false, not_or] at h
  obtain ⟨h1, h2, h3, h4, h5, h6, h7, h8, h9, h10, h11, h12, h13, h14, h15, h16⟩ := h
  have hd : dispatch w s name args =
      (Except.error ⟨McpErrorCode.methodNotFound, "Unknown tool: " ++ name⟩,
        s, []) := by
    unfold dispatch
    simp [h1, h2, h3, h4, h5, h6, h7, h8, h9, h10, h11, h12, h13, h14, h15, h16]
  exact ⟨hd, by rw [hd]⟩

/-- Witness for C3: the tool name web_list_tabs (used by the repository's own
test client) is not declared, and dispatching it from the uninitialized
session returns the MethodNotFound error with no interaction. -/
theorem C3_witness :
    ("web_list_tabs" ∉ TOOLS.map ToolDecl.name) ∧
    (dispatch okWorld emptySession "web_list_tabs" [] =
      (Except.error
        ⟨McpErrorCode.methodNotFound, "Unknown tool: " ++ "web_list_tabs"⟩,
        emptySession, []) ∧
     ((dispatch okWorld emptySession "web_list_tabs" []).2.1.page = none ↔
        emptySession.page = none)) :=
  ⟨by decide,
    C3_unknown_tool_rejected okWorld emptySession "web_list_tabs" [] (by decide)⟩

/-- Counterexample to claim C4 as stated: in an environment where the engine
launches but the context cannot be created, initialization fails with an Err,
yet the session is NOT left fully uninitialized: the browser field retains the
live engine handle assigned before the failure (a live engine handle with no
page). -/
theorem C4_counterexample :
    initializeBM cexWorld emptySession =
      (Except.error "browser.newContext failed", partialState,
        [BAct.launch, BAct.newContext]) ∧
    (initializeBM cexWorld emptySession).2.1.browser ≠ none := by
  exact ⟨rfl, by decide⟩

/-- Claim C4 as amended: when initialization fails from the uninitialized
state, the call surfaces an Err through getPage and the page field stays
null, but the session may retain a live engine handle; because getPage
guards re-initialization only on the page field, the next call re-runs
initialization from scratch (re-launching the engine and producing the fresh
page) rather than reusing the partial state. -/
theorem C4_amended_init_failure_retries (w w2 : World) (s : SState) (e : String)
    (s1 : SState) (tr : List BAct)
    (hpage : s.page = none)
    (hfail : initializeBM w s = (Except.error e, s1, tr))
    (hok : w2.launchOk = true ∧ w2.ctxOk = true ∧ w2.pageOk = true ∧
      w2.userDataDir = none) :
    getPage w s = (Except.error e, s1, tr) ∧
    s1.page = none ∧
    getPage w2 s1 =
      (Except.ok w2.freshPage,
        { browser := some w2.freshBrowser, context := some w2.freshContext,
          page := some w2.freshPage, ui := w2.uiOf w2.freshPage },
        [BAct.launch, BAct.newContext, BAct.newPage, BAct.setTimeouts]) ∧
    BAct.launch ∈ (getPage w2 s1).2.2 := by
  obtain ⟨hL, hC, hP, hU⟩ := hok
  have hgp : getPage w s = (Except.error e, s1, tr) := by
    unfold getPage
    rw [hpage, hfail]
  have hs1 : s1.page = none := by
    unfold initializeBM at hfail
    split at hfail
    · simp only [Prod.mk.injEq, Except.error.injEq] at hfail
      rw [← hfail.2.1]
      exact hpage
    · split at hfail
      · split at hfail
        · simp only [Prod.mk.injEq, Except.error.injEq] at hfail
          rw [← hfail.2.1]
          exact hpage
        · split at hfail
          · simp at hfail
          · split at hfail
            · simp only [Prod.mk.injEq, Except.error.injEq] at hfail
              rw [← hfail.2.1]
              exact hpage
            · simp at hfail
      · split at hfail
        · simp only [Prod.mk.injEq, Except.error.injEq] at hfail
          rw [← hfail.2.1]
          exact hpage
        · split at hfail
          · simp only [Prod.mk.injEq, Except.error.injEq] at hfail
            rw [← hfail.2.1]
            exact hpage
          · simp at hfail
  have hinit2 : initializeBM w2 s1 =
      (Except.ok (),
        { browser := some w2.freshBrowser, context := some w2.freshContext,
          page := some w2.freshPage, ui := w2.uiOf w2.freshPage },
        [BAct.launch, BAct.newContext, BAct.newPage, BAct.setTimeouts]) := by
    unfold initializeBM
    rw [hU]
    simp [hL, hC, hP]
  have hgp2 : getPage w2 s1 =
      (Except.ok w2.freshPage,
        { browser := some w2.freshBrowser, context := some w2.freshContext,
          page := some w2.freshPage, ui := w2.uiOf w2.freshPage },
        [BAct.launch, BAct.newContext, BAct.newPage, BAct.setTimeouts]) := by
    unfold getPage
    rw [hs1, hinit2]
    rfl
  exact ⟨hgp, hs1, hgp2, by rw [hgp2]; simp⟩

/-- Witness for the amended C4: context creation fails in cexWorld, the page
field stays null, and the next getPage in the recovered okWorld re-launches
from scratch. -/
theorem C4_witness :
    emptySession.page = none ∧
    initializeBM cexWorld emptySession =
      (Except.error "browser.newContext failed", partialState,
        [BAct.launch, BAct.newContext]) ∧
    (getPage cexWorld emptySession =
      (Except.error "browser.newContext failed", partialState,
        [BAct.launch, BAct.newContext]) ∧
     partialState.page = none ∧
     getPage okWorld partialState =
       (Except.ok okWorld.freshPage,
        { browser := some okWorld.freshBrowser,
          context := some okWorld.freshContext,
          page := some okWorld.freshPage, ui := okWorld.uiOf okWorld.freshPage },
        [BAct.launch, BAct.newContext, BAct.newPage, BAct.setTimeouts]) ∧
     BAct.launch ∈ (getPage okWorld partialState).2.2) :=
  ⟨rfl, rfl,
    C4_amended_init_failure_retries cexWorld okWorld emptySession
      "browser.newContext failed" partialState
      [BAct.launch, BAct.newContext] rfl rfl ⟨rfl, rfl, rfl, rfl⟩⟩

/-- Helper: the head of a trace is preserved by appending further actions. -/
theorem head?_append_launch {l l2 : List BAct}
    (h : l.head? = some BAct.launch) :
    (l ++ l2).head? = some BAct.launch := by
  cases l with
  | nil => simp at h
  | cons x xs => simpa using h

/-- Helper: every run of initializeBM starts with the engine launch attempt. -/
theorem initializeBM_trace_head (w : World) (s : SState) :
    ∃ rest, (initializeBM w s).2.2 = BAct.launch :: rest := by
  unfold initializeBM
  repeat' split
  all_goals exact ⟨_, rfl⟩

/-- Helper: on an uninitialized session, getPage performs exactly the
initialization interactions. -/
theorem getPage_uninit_trace (w : World) (s : SState) (hpage : s.page = none) :
    (getPage w s).2.2 = (initializeBM w s).2.2 := by
  unfold getPage
  rw [hpage]
  rcases h : initializeBM w s with ⟨r, s1, tr⟩
  cases r <;> simp [h]

/-- Helper: on an uninitialized session, getPage begins with the engine
launch. -/
theorem getPage_uninit_launch (w : World) (s : SState) (hpage : s.page = none) :
    (getPage w s).2.2.head? = some BAct.launch := by
  rw [getPage_uninit_trace w s hpage]
  obtain ⟨rest, h⟩ := initializeBM_trace_head w s
  rw [h]
  rfl

/-- Helper: on an uninitialized session, ensureMessengerOpen begins with the
engine launch. -/
theorem ensureMessengerOpen_uninit_launch (w : World) (s : SState)
    (hpage : s.page = none) :
    (ensureMessengerOpen w s).2.2.head? = some BAct.launch := by
  have hg := getPage_uninit_launch w s hpage
  unfold ensureMessengerOpen
  rcases hgp : getPage w s with ⟨r, s1, tr⟩
  rw [hgp] at hg
  cases r with
  | error e => exact hg
  | ok p =>
    simp only []
    repeat' split
    all_goals first
      | exact head?_append_launch hg
      | exact head?_append_launch (head?_append_launch hg)

/-- Helper: on an uninitialized session, navigate begins with the engine
launch. -/
theorem navigate_uninit_launch (w : World) (s : SState) (u : Option String)
    (hpage : s.page = none) :
    (navigate w s u).2.2.head? = some BAct.launch := by
  have hg := getPage_uninit_launch w s hpage
  unfold navigate
  rcases hgp : getPage w s with ⟨r, s1, tr⟩
  rw [hgp] at hg
  cases r with
  | error e => exact hg
  | ok p =>
    cases u with
    | none => exact hg
    | some uu => exact head?_append_launch hg

/-- Helper: on an uninitialized session, click begins with the engine
launch. -/
theorem click_uninit_launch (w : World) (s : SState) (sel : Option String)
    (hpage : s.page = none) :
    (click w s sel).2.2.head? = some BAct.launch := by
  have hg := getPage_uninit_launch w s hpage
  unfold click
  rcases hgp : getPage w s with ⟨r, s1, tr⟩
  rw [hgp] at hg
  cases r with
  | error e => exact hg
  | ok p =>
    cases sel with
    | none => exact hg
    | some ss =>
      simp only []
      split
      · exact head?_append_launch hg
      · exact head?_append_launch hg

/-- Helper: on an uninitialized session, typeText begins with the engine
launch. -/
theorem typeText_uninit_launch (w : World) (s : SState) (sel t : Option String)
    (hpage : s.page = none) :
    (typeText w s sel t).2.2.head? = some BAct.launch := by
  have hg := getPage_uninit_launch w s hpage
  unfold typeText
  rcases hgp : getPage w s with ⟨r, s1, tr⟩
  rw [hgp] at hg
  cases r with
  | error e => exact hg
  | ok p =>
    cases sel with
    | none => exact hg
    | some ss =>
      cases t with
      | none => exact hg
      | some tt =>
        simp only []
        split
        · exact head?_append_launch hg
        · exact head?_append_launch hg

/-- Helper: on an uninitialized session, executeJs begins with the engine
launch. -/
theorem executeJs_uninit_launch (w : World) (s : SState) (scr : Option String)
    (hpage : s.page = none) :
    (executeJs w s scr).2.2.head? = some BAct.launch := by
  have hg := getPage_uninit_launch w s hpage
  unfold executeJs
  rcases hgp : getPage w s with ⟨r, s1, tr⟩
  rw [hgp] at hg
  cases r with
  | error e => exact hg
  | ok p =>
    cases scr with
    | none => exact hg
    | some ss => exact head?_append_launch hg

/-- Helper: on an uninitialized session, waitFor begins with the engine
launch. -/
theorem waitFor_uninit_launch (w : World) (s : SState) (sel : Option String)
    (ms : Nat) (hpage : s.page = none) :
    (waitFor w s sel ms).2.2.head? = some BAct.launch := by
  have hg := getPage_uninit_launch w s hpage
  unfold waitFor
  rcases hgp : getPage w s with ⟨r, s1, tr⟩
  rw [hgp] at hg
  cases r with
  | error e => exact hg
  | ok p =>
    cases sel with
    | none => exact hg
    | some ss =>
      simp only []
      split
      · exact head?_append_launch hg
      · exact head?_append_launch hg

/-- Helper: on an uninitialized session, searchConversation begins with the
engine launch. -/
theorem searchConversation_uninit_launch (w : World) (s : SState)
    (q : Option String) (hpage : s.page = none) :
    (searchConversation w s q).2.2.head? = some BAct.launch := by
  have hg := ensureMessengerOpen_uninit_launch w s hpage
  unfold searchConversation
  rcases hE : ensureMessengerOpen w s with ⟨st, s1, tr⟩
  rw [hE] at hg
  have hgt : tr.head? = some BAct.launch := hg
  dsimp only
  by_cases hb : st.1 = false
  · rw [if_pos hb]
    exact hgt
  · rw [if_neg hb]
    rcases hg2 : getPage w s1 with ⟨r, s2, tr2⟩
    cases r with
    | error e => exact head?_append_launch hgt
    | ok p =>
      simp only []
      repeat' split
      all_goals first
          | exact hgt
          | exact head?_append_launch hgt
          | exact head?_append_launch (head?_append_launch hgt)
          | exact head?_append_launch (head?_append_launch (head?_append_launch hgt))

/-- Helper: on an uninitialized session, sendMessage begins with the engine
launch. -/
theorem sendMessage_uninit_launch (w : World) (s : SState)
    (nm m : Option String) (hpage : s.page = none) :
    (sendMessage w s nm m).2.2.head? = some BAct.launch := by
  have hg := ensureMessengerOpen_uninit_launch w s hpage
  unfold sendMessage
  rcases hE : ensureMessengerOpen w s with ⟨st, s1, tr⟩
  rw [hE] at hg
  have hgt : tr.head? = some BAct.launch := hg
  dsimp only
  by_cases hb : st.1 = false
  · rw [if_pos hb]
    exact hgt
  · rw [if_neg hb]
    rcases hO : openConversation w s1 nm with ⟨op, s2, tr2⟩
    dsimp only
    by_cases hb2 : op.1 = false
    · rw [if_pos hb2]
      first
      | exact head?_append_launch hgt
      | exact head?_append_launch (head?_append_launch hgt)
    · rw [if_neg hb2]
      rcases hg3 : getPage w s2 with ⟨r, s3, tr3⟩
      cases r with
      | error e =>
        first
        | exact head?_append_launch hgt
        | exact head?_append_launch (head?_append_launch hgt)
      | ok p =>
        simp only []
        repeat' split
        all_goals first
          | exact hgt
          | exact head?_append_launch hgt
          | exact head?_append_launch (head?_append_launch hgt)
          | exact head?_append_launch (head?_append_launch (head?_append_launch hgt))

/-- Helper: on an uninitialized session, sendFile begins with the engine
launch. -/
theorem sendFile_uninit_launch (w : World) (s : SState)
    (nm fp : Option String) (hpage : s.page = none) :
    (sendFile w s nm fp).2.2.head? = some BAct.launch := by
  have hg := ensureMessengerOpen_uninit_launch w s hpage
  unfold sendFile
  rcases hE : ensureMessengerOpen w s with ⟨st, s1, tr⟩
  rw [hE] at hg
  have hgt : tr.head? = some BAct.launch := hg
  dsimp only
  by_cases hb : st.1 = false
  · rw [if_pos hb]
    exact hgt
  · rw [if_neg hb]
    rcases hO : openConversation w s1 nm with ⟨op, s2, tr2⟩
    dsimp only
    by_cases hb2 : op.1 = false
    · rw [if_pos hb2]
      first
      | exact head?_append_launch hgt
      | exact head?_append_launch (head?_append_launch hgt)
    · rw [if_neg hb2]
      rcases hg3 : getPage w s2 with ⟨r, s3, tr3⟩
      cases r with
      | error e =>
        first
        | exact head?_append_launch hgt
        | exact head?_append_launch (head?_append_launch hgt)
      | ok p =>
        simp only []
        repeat' split
        all_goals first
          | exact hgt
          | exact head?_append_launch hgt
          | exact head?_append_launch (head?_append_launch hgt)
          | exact head?_append_launch (head?_append_launch (head?_append_launch hgt))
          | exact head?_append_launch (head?_append_launch (head?_append_launch (head?_append_launch hgt)))

/-- Counterexample to claim C1 as stated: web_navigate declares url as a
required field; dispatching it with an empty argument object is NOT rejected
before the handler runs — the dispatcher invokes the handler, the session is
initialized (engine launch, context and page creation appear in the trace),
and the missing field only surfaces later as the handler's execution-time
soft error. -/
theorem C1_counterexample :
    (ToolDecl.mk "web_navigate" ["url"]) ∈ TOOLS ∧
    getField [] "url" = none ∧
    dispatch okWorld emptySession "web_navigate" [] =
      (Except.ok (ToolOut.nav false none (some "page.goto: url expected string")),
        initState,
        [BAct.launch, BAct.newContext, BAct.newPage, BAct.setTimeouts]) ∧
    initState.page ≠ none ∧
    BAct.launch ∈ (dispatch okWorld emptySession "web_navigate" []).2.2 :=
  ⟨by decide, rfl, rfl, by decide, by decide⟩

/-- Claim C1 as amended: the dispatcher performs no required-field
validation.  For every declared tool and every argument payload missing one
of its required fields, the call is not rejected: the switch invokes the
handler (the dispatch result is the handler's Ok envelope, not a protocol
error), and when the session is uninitialized the handler's browser
interaction begins with the engine launch. -/
theorem C1_amended_no_validation (w : World) (s : SState) (t : ToolDecl)
    (args : Args)
    (ht : t ∈ TOOLS)
    (hmiss : ∃ f ∈ t.required, getField args f = none) :
    (∃ out, (dispatch w s t.name args).1 = Except.ok out) ∧
    (s.page = none →
      (dispatch w s t.name args).2.2.head? = some BAct.launch) := by
  unfold TOOLS at ht
  simp only [List.mem_cons, List.not_mem_nil, or_false] at ht
  rcases ht with rfl | rfl | rfl | rfl | rfl | rfl | rfl | rfl | rfl | rfl |
    rfl | rfl | rfl | rfl | rfl | rfl
  · simp at hmiss
  · exact ⟨⟨_, rfl⟩, fun hpage =>
      searchConversation_uninit_launch w s (getStr args "query") hpage⟩
  · exact ⟨⟨_, rfl⟩, fun hpage =>
      sendMessage_uninit_launch w s (getStr args "conversationName")
        (getStr args "message") hpage⟩
  · simp at hmiss
  · exact ⟨⟨_, rfl⟩, fun hpage =>
      sendFile_uninit_launch w s (getStr args "conversationName")
        (getStr args "filePath") hpage⟩
  · simp at hmiss
  · exact ⟨⟨_, rfl⟩, fun hpage =>
      navigate_uninit_launch w s (getStr args "url") hpage⟩
  · simp at hmiss
  · exact ⟨⟨_, rfl⟩, fun hpage =>
      click_uninit_launch w s (getStr args "selector") hpage⟩
  · exact ⟨⟨_, rfl⟩, fun hpage =>
      typeText_uninit_launch w s (getStr args "selector")
        (getStr args "text") hpage⟩
  · simp at hmiss
  · exact ⟨⟨_, rfl⟩, fun hpage =>
      executeJs_uninit_launch w s (getStr args "script") hpage⟩
  · exact ⟨⟨_, rfl⟩, fun hpage =>
      waitFor_uninit_launch w s (getStr args "selector")
        (((getNum args "timeout").map Int.toNat).getD 5000) hpage⟩
  · simp at hmiss
  · simp at hmiss
  · simp at hmiss

/-- Witness for the amended C1: web_navigate with an empty argument object
from the uninitialized session. -/
theorem C1_witness :
    (ToolDecl.mk "web_navigate" ["url"]) ∈ TOOLS ∧
    (∃ f ∈ (ToolDecl.mk "web_navigate" ["url"]).required,
      getField [] f = none) ∧
    ((∃ out,
        (dispatch okWorld emptySession (ToolDecl.mk "web_navigate" ["url"]).name
          []).1 = Except.ok out) ∧
     (emptySession.page = none →
        (dispatch okWorld emptySession (ToolDecl.mk "web_navigate" ["url"]).name
          []).2.2.head? = some BAct.launch)) :=
  ⟨by decide, ⟨"url", by decide, rfl⟩,
    C1_amended_no_validation okWorld emptySession
      (ToolDecl.mk "web_navigate" ["url"]) [] (by decide)
      ⟨"url", by decide, rfl⟩⟩

/-- Claim C2 evaluated on the code: the CallToolRequestSchema handler contains
no Call Serializer — each incoming request is wired to an independent async
handler with no queue or mutex, and a handler yields at every await, so the
observable browser interaction of two in-flight calls is an arbitrary
interleaving of the two handler traces.  The schedule interleavedTrace is such
an interleaving, it is not the serialized trace (first handler completely
before the second), and in it the second call's click lands between the first
call's fill of the message input and its Enter press — refuting the claimed
strict FIFO admission. -/
theorem C2_interleaving_violates_serialization :
    isInterleaving sendTrace1 clickTrace2 interleavedTrace = true ∧
    interleavedTrace ≠ sendTrace1 ++ clickTrace2 ∧
    [BAct.fill SELECTORS.messageInput "hi", BAct.click "button#send2",
      BAct.press "Enter"] <:+: interleavedTrace := by
  exact ⟨by decide, by decide, by decide⟩
